import Mathlib

/-
Shallow embedding of src/scripts/ollama-api.py, an OpenAI-compatible proxy
in front of an Ollama backend.  Pure translation logic is modelled as Lean
functions; ambient effects are modelled as explicit parameters:
  * `uuid.uuid4().hex` is passed in as a list of characters `uuidHex`;
  * `int(time.time())` is passed in as a natural number `now`;
  * the outcome of an outbound HTTP call is passed in as a `BackendFetch`
    value (either a status code with a decoded JSON body, or a raised
    exception carrying its message text);
  * a streamed backend body is passed in as the list of its lines, each
    line already classified by what `json.loads` would do to it.
Raised-and-caught Python exceptions become `Except`/error-result values.
-/

set_option autoImplicit false

namespace OllamaApi

-- Character with code 39 (single quote), used to build the text Python
-- produces for `str(KeyError("k"))`, namely the key wrapped in quotes.
def sq : Char := Char.ofNat 39

-- Models Python `str(e)` for `e = KeyError("k")`: the result is `'k'`.
def keyErrorText (k : String) : String :=
  String.mk [sq] ++ k ++ String.mk [sq]

-- Request ids are minted as f"chatcmpl-{uuid.uuid4().hex[:8]}" (chat) or
-- f"cmpl-{uuid.uuid4().hex[:8]}" (completion); `hx` stands for the 32
-- lowercase hex characters of `uuid.uuid4().hex`.
def mintId (pre : String) (hx : List Char) : String :=
  pre ++ String.mk (hx.take 8)

-- Lowercase hexadecimal characters, the alphabet of `uuid.uuid4().hex`.
def isLowerHexChar (c : Char) : Bool :=
  c.isDigit || ('a' ≤ c && c ≤ 'f')

-- Pydantic model `Message` (role/content).
structure Message where
  role : String
  content : String
  deriving DecidableEq

-- Pydantic model `ChatCompletionRequest` (lines 40-45 of the source).
structure ChatCompletionRequest where
  model : String
  messages : List Message
  temperature : Rat
  max_tokens : Option Int
  stream : Bool
  deriving DecidableEq

-- Pydantic model `CompletionRequest` (lines 47-52 of the source).
structure CompletionRequest where
  model : String
  prompt : String
  temperature : Rat
  max_tokens : Option Int
  stream : Bool
  deriving DecidableEq

-- The `options` sub-dict of the request sent to Ollama.  `num_predict =
-- none` models the key being absent from the dict: the source either sets
-- the key to the integer `request.max_tokens` or never touches it, so no
-- null value can arise and `Option` is a faithful model of key presence.
structure OllamaOptions where
  temperature : Rat
  num_predict : Option Int
  deriving DecidableEq

-- The dict posted to POST /api/chat (lines 93-103).
structure OllamaChatRequest where
  model : String
  messages : List Message
  stream : Bool
  options : OllamaOptions
  deriving DecidableEq

-- The dict posted to POST /api/generate (lines 192-202).
structure OllamaGenerateRequest where
  model : String
  prompt : String
  stream : Bool
  options : OllamaOptions
  deriving DecidableEq

-- Python truthiness of an `Optional[int]`: `None` and `0` are falsy.
def pyTruthyOptInt : Option Int → Bool
  | none => false
  | some n => n != 0

/-- Request translation of `chat_completions` (source lines 91-103): copy
model, messages, stream and temperature; set `options.num_predict` from
`max_tokens` only under `if request.max_tokens:` (Python truthiness). -/
def buildChatOllamaRequest (req : ChatCompletionRequest) : OllamaChatRequest :=
  { model := req.model
    messages := req.messages.map (fun m => { role := m.role, content := m.content })
    stream := req.stream
    options :=
      { temperature := req.temperature
        num_predict := if pyTruthyOptInt req.max_tokens then req.max_tokens else none } }

/-- Request translation of `completions` (source lines 192-202). -/
def buildGenerateOllamaRequest (req : CompletionRequest) : OllamaGenerateRequest :=
  { model := req.model
    prompt := req.prompt
    stream := req.stream
    options :=
      { temperature := req.temperature
        num_predict := if pyTruthyOptInt req.max_tokens then req.max_tokens else none } }

-- Decoded JSON body of a non-streaming POST /api/chat reply, restricted to
-- the keys the handler reads.  `message = none` models a missing `message`
-- key; `content = none` inside models a `message` dict without `content`.
structure OllamaMessageObj where
  content : Option String
  deriving DecidableEq

structure OllamaChatResponse where
  message : Option OllamaMessageObj
  prompt_eval_count : Option Nat
  eval_count : Option Nat
  deriving DecidableEq

-- Decoded JSON body of a non-streaming POST /api/generate reply.
structure OllamaGenerateResponse where
  response : Option String
  prompt_eval_count : Option Nat
  eval_count : Option Nat
  deriving DecidableEq

structure Usage where
  prompt_tokens : Nat
  completion_tokens : Nat
  total_tokens : Nat
  deriving DecidableEq

structure ChatChoice where
  index : Nat
  role : String
  content : String
  finish_reason : Option String
  deriving DecidableEq

structure ChatCompletionResponse where
  id : String
  object : String
  created : Nat
  model : String
  choices : List ChatChoice
  usage : Usage
  deriving DecidableEq

structure TextChoice where
  text : String
  index : Nat
  finish_reason : Option String
  deriving DecidableEq

structure TextCompletionResponse where
  id : String
  object : String
  created : Nat
  model : String
  choices : List TextChoice
  usage : Usage
  deriving DecidableEq

-- A FastAPI `HTTPException(status_code=..., detail=...)`.
structure HttpError where
  status_code : Nat
  detail : String
  deriving DecidableEq

-- The `usage` dict built at lines 133-137 / 228-232: each missing counter
-- defaults to 0 via `.get(key, 0)`.
def usageOf (pec ec : Option Nat) : Usage :=
  { prompt_tokens := pec.getD 0
    completion_tokens := ec.getD 0
    total_tokens := pec.getD 0 + ec.getD 0 }

/-- Non-streaming branch of `chat_completions` (source lines 112-140):
translate the backend reply to the OpenAI shape.  `ollama_response["message"]`
raises `KeyError("message")` when the key is missing, and
`["content"]` on the message dict raises `KeyError("content")`; either
exception is caught by the surrounding `except Exception` and re-raised as
`HTTPException(status_code=500, detail=str(e))`.  The handler consumes
exactly one backend response: there is no retry path in the source. -/
def chat_completions_nonstream (hx : List Char) (now : Nat)
    (req : ChatCompletionRequest) (resp : OllamaChatResponse) :
    Except HttpError ChatCompletionResponse :=
  match resp.message with
  | none => .error { status_code := 500, detail := keyErrorText "message" }
  | some m =>
    match m.content with
    | none => .error { status_code := 500, detail := keyErrorText "content" }
    | some c =>
      .ok { id := mintId "chatcmpl-" hx
            object := "chat.completion"
            created := now
            model := req.model
            choices := [{ index := 0, role := "assistant", content := c,
                          finish_reason := some "stop" }]
            usage := usageOf resp.prompt_eval_count resp.eval_count }

/-- Non-streaming branch of `completions` (source lines 211-235): same shape
with `ollama_response["response"]` as the text source. -/
def completions_nonstream (hx : List Char) (now : Nat)
    (req : CompletionRequest) (resp : OllamaGenerateResponse) :
    Except HttpError TextCompletionResponse :=
  match resp.response with
  | none => .error { status_code := 500, detail := keyErrorText "response" }
  | some t =>
    .ok { id := mintId "cmpl-" hx
          object := "text_completion"
          created := now
          model := req.model
          choices := [{ text := t, index := 0, finish_reason := some "stop" }]
          usage := usageOf resp.prompt_eval_count resp.eval_count }

-- Outcome of an outbound HTTP call made with httpx: either a response with
-- a status code and a decoded body, or a raised exception (connection
-- refused, timeout, ...) carrying its message text.  httpx does not raise
-- on non-2xx statuses unless asked to, and this source never asks.
inductive BackendFetch (α : Type) where
  | ok (status : Nat) (body : α)
  | exn (msg : String)
  deriving DecidableEq

-- Result of the `health` handler.  `noneBody` models the Python function
-- falling off its end and returning `None`, which FastAPI serialises as an
-- HTTP 200 response with body `null`.
inductive HealthResult where
  | healthy
  | noneBody
  | httpError (e : HttpError)
  deriving DecidableEq

/-- Handler of GET /health (source lines 58-66): query GET /api/tags; on
status 200 return the healthy body; on any other status fall through and
return `None`; only a raised exception becomes a 503. -/
def health (fetch : BackendFetch Unit) : HealthResult :=
  match fetch with
  | .exn e => .httpError { status_code := 503, detail := "Ollama not available: " ++ e }
  | .ok status _ => if status = 200 then .healthy else .noneBody

def isHttpErrorResult : HealthResult → Bool
  | .httpError _ => true
  | _ => false

-- One entry of the backend model list, restricted to the `name` key the
-- handler reads (`model["name"]`).
structure OllamaModelEntry where
  name : String
  deriving DecidableEq

structure ModelOut where
  id : String
  object : String
  created : Nat
  owned_by : String
  deriving DecidableEq

structure ModelListOut where
  object : String
  data : List ModelOut
  deriving DecidableEq

inductive ModelsResult where
  | ok (body : ModelListOut)
  | noneBody
  | httpError (e : HttpError)
  deriving DecidableEq

/-- Handler of GET /v1/models (source lines 68-86).  The body parameter is
the backend list already extracted by `response.json().get("models", [])`
(a missing `models` key yields the empty list).  On a non-200 status the
function falls through and returns `None`; an exception becomes a 500. -/
def list_models (now : Nat) (fetch : BackendFetch (List OllamaModelEntry)) : ModelsResult :=
  match fetch with
  | .exn e => .httpError { status_code := 500, detail := e }
  | .ok status ms =>
    if status = 200 then
      .ok { object := "list"
            data := ms.map (fun m =>
              { id := m.name, object := "model", created := now, owned_by := "ollama" }) }
    else .noneBody

-- Streaming.  A backend stream is a list of lines.  Each line is
-- classified by what the loop body does with it before any frame logic
-- runs: `empty` is a falsy line (skipped by `if line:`), `malformed` is a
-- line on which `json.loads` raises `json.JSONDecodeError` (the `except`
-- clause runs `continue`), and `chunk` is a line that parsed to a JSON
-- object, restricted to the keys the loop reads.

-- The `message` value of a streamed chat chunk; `content = none` models a
-- message dict without a `content` key (the code reads it with
-- `.get("content", "")`, so absence behaves like the empty string).
structure StreamMessage where
  content : Option String
  deriving DecidableEq

-- A parsed streamed chat line: `message = none` models a chunk without a
-- `message` key; `done` is `ollama_chunk.get("done", False)` with Python
-- truthiness already applied (an absent key is `false`).
structure ChatStreamChunkIn where
  message : Option StreamMessage
  done : Bool
  deriving DecidableEq

inductive ChatLine where
  | empty
  | malformed
  | chunk (c : ChatStreamChunkIn)
  deriving DecidableEq

-- A parsed streamed completion line (`.get("response", "")` and
-- `.get("done", False)`).
structure GenStreamChunkIn where
  response : Option String
  done : Bool
  deriving DecidableEq

inductive GenLine where
  | empty
  | malformed
  | chunk (c : GenStreamChunkIn)
  deriving DecidableEq

-- The `delta` dict of a chat stream chunk: `{}` or `{"content": ...}`.
structure ChatDelta where
  content : Option String
  deriving DecidableEq

structure ChatChunkChoice where
  index : Nat
  delta : ChatDelta
  finish_reason : Option String
  deriving DecidableEq

-- JSON payload of one chat SSE frame `data: <json.dumps(chunk)>\n\n`.
structure ChatStreamPayload where
  id : String
  object : String
  created : Nat
  model : String
  choices : List ChatChunkChoice
  deriving DecidableEq

-- One emitted SSE frame: either `data: <json>\n\n` carrying a payload, or
-- the literal sentinel frame `data: [DONE]\n\n`.
inductive ChatFrame where
  | data (p : ChatStreamPayload)
  | doneSentinel
  deriving DecidableEq

-- JSON payload of one completion SSE frame.
structure GenStreamPayload where
  id : String
  object : String
  created : Nat
  model : String
  choices : List TextChoice
  deriving DecidableEq

inductive GenFrame where
  | data (p : GenStreamPayload)
  | doneSentinel
  deriving DecidableEq

-- The chunk dict built at source lines 159-169 for non-empty content.
def chatContentPayload (rid : String) (now : Nat) (model : String)
    (content : String) : ChatStreamPayload :=
  { id := rid, object := "chat.completion.chunk", created := now, model := model
    choices := [{ index := 0, delta := { content := some content },
                  finish_reason := none }] }

-- The final chunk dict built at source lines 174-184: empty delta and
-- finish_reason "stop".
def chatTerminalPayload (rid : String) (now : Nat) (model : String) : ChatStreamPayload :=
  { id := rid, object := "chat.completion.chunk", created := now, model := model
    choices := [{ index := 0, delta := { content := none },
                  finish_reason := some "stop" }] }

-- The chunk dict built at source lines 252-262.
def genContentPayload (rid : String) (now : Nat) (model : String)
    (text : String) : GenStreamPayload :=
  { id := rid, object := "text_completion", created := now, model := model
    choices := [{ text := text, index := 0, finish_reason := none }] }

-- Content frames of one chat line: `content = ollama_chunk["message"]
-- .get("content", "")`, and a frame is yielded only under `if content:`
-- (the empty string is falsy).
def chatContentFrames (rid : String) (now : Nat) (model : String)
    (m : StreamMessage) : List ChatFrame :=
  if m.content.getD "" = "" then []
  else [.data (chatContentPayload rid now model (m.content.getD ""))]

/-- Frames yielded for one backend line by `stream_chat_response` (source
lines 151-188).  The `done` handling is nested inside
`if "message" in ollama_chunk:`, so a chunk without a `message` key yields
nothing even when `done` is true. -/
def chatLineFrames (rid : String) (now : Nat) (model : String) : ChatLine → List ChatFrame
  | .empty => []
  | .malformed => []
  | .chunk c =>
    match c.message with
    | none => []
    | some m =>
      chatContentFrames rid now model m ++
      (if c.done then [.data (chatTerminalPayload rid now model), .doneSentinel] else [])

-- Content frames of one completion line (`text = ollama_chunk
-- .get("response", "")`, yielded only under `if text:`).
def genContentFrames (rid : String) (now : Nat) (model : String)
    (c : GenStreamChunkIn) : List GenFrame :=
  if c.response.getD "" = "" then []
  else [.data (genContentPayload rid now model (c.response.getD ""))]

/-- Frames yielded for one backend line by `stream_completion_response`
(source lines 246-268).  Unlike the chat variant, the `done` check is not
nested under any key test, and no terminal chunk precedes the sentinel. -/
def genLineFrames (rid : String) (now : Nat) (model : String) : GenLine → List GenFrame
  | .empty => []
  | .malformed => []
  | .chunk c =>
    genContentFrames rid now model c ++ (if c.done then [.doneSentinel] else [])

-- The `async for line in response.aiter_lines():` loop: each iteration
-- yields the frames of its line, in arrival order, then continues with the
-- rest of the stream.
def chatLoop (rid : String) (now : Nat) (model : String) : List ChatLine → List ChatFrame
  | [] => []
  | l :: ls => chatLineFrames rid now model l ++ chatLoop rid now model ls

def genLoop (rid : String) (now : Nat) (model : String) : List GenLine → List GenFrame
  | [] => []
  | l :: ls => genLineFrames rid now model l ++ genLoop rid now model ls

/-- Generator `stream_chat_response` (source lines 142-188): mint the
request id once, before any line is read, then run the loop. -/
def stream_chat_response (hx : List Char) (now : Nat) (model : String)
    (lines : List ChatLine) : List ChatFrame :=
  let request_id := mintId "chatcmpl-" hx
  chatLoop request_id now model lines

/-- Generator `stream_completion_response` (source lines 237-268). -/
def stream_completion_response (hx : List Char) (now : Nat) (model : String)
    (lines : List GenLine) : List GenFrame :=
  let request_id := mintId "cmpl-" hx
  genLoop request_id now model lines

-- Helper lemmas shared by the claim theorems below.

theorem chatLoop_append (rid : String) (now : Nat) (model : String) (xs ys : List ChatLine) :
    chatLoop rid now model (xs ++ ys)
      = chatLoop rid now model xs ++ chatLoop rid now model ys := by
  induction xs with
  | nil => rfl
  | cons l ls ih => simp [chatLoop, ih]

theorem genLoop_append (rid : String) (now : Nat) (model : String) (xs ys : List GenLine) :
    genLoop rid now model (xs ++ ys)
      = genLoop rid now model xs ++ genLoop rid now model ys := by
  induction xs with
  | nil => rfl
  | cons l ls ih => simp [genLoop, ih]

theorem chatLoop_flatten (rid : String) (now : Nat) (model : String) (ls : List ChatLine) :
    chatLoop rid now model ls = (ls.map (chatLineFrames rid now model)).flatten := by
  induction ls with
  | nil => rfl
  | cons l ls ih => simp [chatLoop, ih]

theorem genLoop_flatten (rid : String) (now : Nat) (model : String) (ls : List GenLine) :
    genLoop rid now model ls = (ls.map (genLineFrames rid now model)).flatten := by
  induction ls with
  | nil => rfl
  | cons l ls ih => simp [genLoop, ih]

theorem chatLineFrames_id (rid : String) (now : Nat) (model : String) (l : ChatLine)
    (p : ChatStreamPayload) (h : ChatFrame.data p ∈ chatLineFrames rid now model l) :
    p.id = rid := by
  cases l with
  | empty => simp [chatLineFrames] at h
  | malformed => simp [chatLineFrames] at h
  | chunk c =>
    cases hm : c.message with
    | none => simp [chatLineFrames, hm] at h
    | some m =>
      rw [chatLineFrames, hm] at h
      rw [List.mem_append] at h
      rcases h with h | h
      · rw [chatContentFrames] at h
        split at h
        · simp at h
        · simp at h
          rw [h, chatContentPayload]
      · split at h
        · simp at h
          rw [h, chatTerminalPayload]
        · simp at h

theorem genLineFrames_id (rid : String) (now : Nat) (model : String) (l : GenLine)
    (p : GenStreamPayload) (h : GenFrame.data p ∈ genLineFrames rid now model l) :
    p.id = rid := by
  cases l with
  | empty => simp [genLineFrames] at h
  | malformed => simp [genLineFrames] at h
  | chunk c =>
    rw [genLineFrames, List.mem_append] at h
    rcases h with h | h
    · rw [genContentFrames] at h
      split at h
      · simp at h
      · simp at h
        rw [h, genContentPayload]
    · split at h
      · simp at h
      · simp at h

theorem chatLoop_id (rid : String) (now : Nat) (model : String) (lines : List ChatLine)
    (p : ChatStreamPayload) (h : ChatFrame.data p ∈ chatLoop rid now model lines) :
    p.id = rid := by
  induction lines with
  | nil => simp [chatLoop] at h
  | cons l ls ih =>
    rw [chatLoop, List.mem_append] at h
    rcases h with h | h
    · exact chatLineFrames_id _ _ _ _ _ h
    · exact ih h

theorem genLoop_id (rid : String) (now : Nat) (model : String) (lines : List GenLine)
    (p : GenStreamPayload) (h : GenFrame.data p ∈ genLoop rid now model lines) :
    p.id = rid := by
  induction lines with
  | nil => simp [genLoop] at h
  | cons l ls ih =>
    rw [genLoop, List.mem_append] at h
    rcases h with h | h
    · exact genLineFrames_id _ _ _ _ _ h
    · exact ih h

theorem numPredict_spec (mt : Option Int) :
    (mt = none → (if pyTruthyOptInt mt then mt else none) = none)
    ∧ (mt = some 0 → (if pyTruthyOptInt mt then mt else none) = none)
    ∧ (∀ n : Int, mt = some n → n ≠ 0 → (if pyTruthyOptInt mt then mt else none) = some n)
    ∧ (∀ n : Int, (if pyTruthyOptInt mt then mt else none) = some n →
        mt = some n ∧ n ≠ 0) := by
  cases mt with
  | none => simp [pyTruthyOptInt]
  | some k =>
    by_cases hk : k = 0
    · subst hk
      simp [pyTruthyOptInt]
    · simp [pyTruthyOptInt, hk]

/-- C1 counterexample: the claim quantifies over every chat streaming chunk
with `done == true`, but in the source the `done` handling is nested inside
`if "message" in ollama_chunk:`; a chunk `{"done": true}` without a
`message` key therefore yields no frame at all, in particular neither the
terminal finish_reason "stop" chunk nor the `data: [DONE]` frame the claim
requires. -/
theorem c1_counterexample :
    stream_chat_response [] 0 "m"
      [ChatLine.chunk { message := none, done := true }] = [] := rfl

/-- C1 (amended): for every chat streaming chunk with `done == true` that
also carries a `message` key, the translator emits its content frames
followed by one terminal chunk with an empty delta and finish_reason
"stop" and then the `data: [DONE]` sentinel; for every completion
streaming chunk with `done == true` it emits its content frames followed
by the `data: [DONE]` sentinel; and feeding the chat translator the two
lines {"message":{"content":"Hi"}} and {"done":true,"message":
{"content":""}} yields exactly three frames: the content delta frame for
"Hi", the terminal frame, and the sentinel. -/
theorem c1_done_framing :
    (∀ (rid : String) (now : Nat) (model : String) (c : ChatStreamChunkIn)
        (m : StreamMessage), c.message = some m → c.done = true →
        chatLineFrames rid now model (.chunk c)
          = chatContentFrames rid now model m
            ++ [ChatFrame.data (chatTerminalPayload rid now model), ChatFrame.doneSentinel])
    ∧ (∀ (rid : String) (now : Nat) (model : String) (c : GenStreamChunkIn),
        c.done = true →
        genLineFrames rid now model (.chunk c)
          = genContentFrames rid now model c ++ [GenFrame.doneSentinel])
    ∧ (∀ (hx : List Char) (now : Nat) (model : String),
        stream_chat_response hx now model
          [ChatLine.chunk { message := some { content := some "Hi" }, done := false },
           ChatLine.chunk { message := some { content := some "" }, done := true }]
          = [ChatFrame.data (chatContentPayload (mintId "chatcmpl-" hx) now model "Hi"),
             ChatFrame.data (chatTerminalPayload (mintId "chatcmpl-" hx) now model),
             ChatFrame.doneSentinel]) := by
  refine ⟨?_, ?_, ?_⟩
  · intro rid now model c m hm hd
    rw [chatLineFrames, hm, hd]
    simp
  · intro rid now model c hd
    rw [genLineFrames, hd]
    simp
  · intro hx now model
    rfl

/-- C1 witness: the amended statement applied to one concrete done chunk of
each endpoint family. -/
theorem c1_done_framing_witness :
    chatLineFrames "x" 5 "m"
        (.chunk { message := some { content := some "ok" }, done := true })
      = chatContentFrames "x" 5 "m" { content := some "ok" }
        ++ [ChatFrame.data (chatTerminalPayload "x" 5 "m"), ChatFrame.doneSentinel]
    ∧ genLineFrames "x" 5 "m" (.chunk { response := some "ok", done := true })
      = genContentFrames "x" 5 "m" { response := some "ok", done := true }
        ++ [GenFrame.doneSentinel] :=
  ⟨c1_done_framing.1 "x" 5 "m" _ _ rfl rfl, c1_done_framing.2.1 "x" 5 "m" _ rfl⟩

/-- C2 counterexample: the claim requires a 503 when the backend answers
GET /api/tags with a non-200 status, but on status 500 the `health`
handler falls through and returns `None` (serialised as HTTP 200 with a
null body), which is no HTTPException at all. -/
theorem c2_counterexample :
    health (.ok 500 ()) = HealthResult.noneBody
    ∧ isHttpErrorResult (health (.ok 500 ())) = false := ⟨rfl, rfl⟩

/-- C2 (amended): GET /health returns 503 with the descriptive detail
"Ollama not available: <error>" when the backend call raises (connection
refused or timeout); it returns the healthy body on a 200 backend reply;
on any non-200 backend status it falls through and returns None (an HTTP
200 null body), not a 503. -/
theorem c2_health_status (e : String) (s : Nat) (hs : s ≠ 200) :
    health (.exn e)
      = .httpError { status_code := 503, detail := "Ollama not available: " ++ e }
    ∧ health (.ok 200 ()) = .healthy
    ∧ health (.ok s ()) = .noneBody := by
  refine ⟨rfl, rfl, ?_⟩
  simp [health, hs]

/-- C2 witness: the amended statement at the error text "boom" and the
non-200 status 500. -/
theorem c2_health_status_witness :
    health (.exn "boom")
      = HealthResult.httpError
          { status_code := 503, detail := "Ollama not available: " ++ "boom" }
    ∧ health (.ok 500 ()) = HealthResult.noneBody := by
  have h := c2_health_status "boom" 500 (by decide)
  exact ⟨h.1, h.2.2⟩

/-- C3: both request translators copy `stream` and `options.temperature`
verbatim, and the constructed request contains `options.num_predict` if
and only if `max_tokens` is truthy (present and non-zero), in which case
it equals `max_tokens`; when `max_tokens` is unset or 0 the key is absent
(modelled as `none`). -/
theorem c3_request_translation (req : ChatCompletionRequest) (creq : CompletionRequest) :
    ((buildChatOllamaRequest req).stream = req.stream
      ∧ (buildChatOllamaRequest req).options.temperature = req.temperature
      ∧ (req.max_tokens = none → (buildChatOllamaRequest req).options.num_predict = none)
      ∧ (req.max_tokens = some 0 → (buildChatOllamaRequest req).options.num_predict = none)
      ∧ (∀ n : Int, req.max_tokens = some n → n ≠ 0 →
          (buildChatOllamaRequest req).options.num_predict = some n)
      ∧ (∀ n : Int, (buildChatOllamaRequest req).options.num_predict = some n →
          req.max_tokens = some n ∧ n ≠ 0))
    ∧ ((buildGenerateOllamaRequest creq).stream = creq.stream
      ∧ (buildGenerateOllamaRequest creq).options.temperature = creq.temperature
      ∧ (creq.max_tokens = none →
          (buildGenerateOllamaRequest creq).options.num_predict = none)
      ∧ (creq.max_tokens = some 0 →
          (buildGenerateOllamaRequest creq).options.num_predict = none)
      ∧ (∀ n : Int, creq.max_tokens = some n → n ≠ 0 →
          (buildGenerateOllamaRequest creq).options.num_predict = some n)
      ∧ (∀ n : Int, (buildGenerateOllamaRequest creq).options.num_predict = some n →
          creq.max_tokens = some n ∧ n ≠ 0)) := by
  have h1 := numPredict_spec req.max_tokens
  have h2 := numPredict_spec creq.max_tokens
  exact ⟨⟨rfl, rfl, h1.1, h1.2.1, h1.2.2.1, h1.2.2.2⟩,
         ⟨rfl, rfl, h2.1, h2.2.1, h2.2.2.1, h2.2.2.2⟩⟩

/-- C3 witness: `max_tokens = 5` yields `num_predict = 5` on the chat
request, and `max_tokens = 0` yields no `num_predict` key on the
completion request. -/
theorem c3_request_translation_witness :
    (buildChatOllamaRequest ⟨"m", [], 1, some 5, true⟩).options.num_predict = some 5
    ∧ (buildGenerateOllamaRequest ⟨"m", "p", 1, some 0, false⟩).options.num_predict
        = none := by
  have h := c3_request_translation ⟨"m", [], 1, some 5, true⟩ ⟨"m", "p", 1, some 0, false⟩
  exact ⟨h.1.2.2.2.2.1 5 rfl (by decide), h.2.2.2.2.1 rfl⟩

/-- C4: every successful non-streaming translation carries the backend
content (message.content for chat, response for completion) as choices[0],
finish_reason unconditionally "stop", and usage.total_tokens equal to
prompt_eval_count + eval_count with missing counters defaulting to 0; in
particular {message:{content:"hi"}, prompt_eval_count:3, eval_count:5}
translates to content "hi" and total_tokens 8. -/
theorem c4_nonstream_translation :
    (∀ (hx : List Char) (now : Nat) (req : ChatCompletionRequest)
        (resp : OllamaChatResponse) (m : OllamaMessageObj) (c : String),
        resp.message = some m → m.content = some c →
        chat_completions_nonstream hx now req resp
          = .ok ⟨mintId "chatcmpl-" hx, "chat.completion", now, req.model,
                 [⟨0, "assistant", c, some "stop"⟩],
                 ⟨resp.prompt_eval_count.getD 0, resp.eval_count.getD 0,
                  resp.prompt_eval_count.getD 0 + resp.eval_count.getD 0⟩⟩)
    ∧ (∀ (hx : List Char) (now : Nat) (req : CompletionRequest)
        (resp : OllamaGenerateResponse) (t : String),
        resp.response = some t →
        completions_nonstream hx now req resp
          = .ok ⟨mintId "cmpl-" hx, "text_completion", now, req.model,
                 [⟨t, 0, some "stop"⟩],
                 ⟨resp.prompt_eval_count.getD 0, resp.eval_count.getD 0,
                  resp.prompt_eval_count.getD 0 + resp.eval_count.getD 0⟩⟩)
    ∧ chat_completions_nonstream [] 0 ⟨"m", [], 1, none, false⟩
        ⟨some ⟨some "hi"⟩, some 3, some 5⟩
        = .ok ⟨mintId "chatcmpl-" [], "chat.completion", 0, "m",
               [⟨0, "assistant", "hi", some "stop"⟩], ⟨3, 5, 8⟩⟩ := by
  refine ⟨?_, ?_, rfl⟩
  · intro hx now req resp m c hm hc
    simp [chat_completions_nonstream, hm, hc, usageOf]
  · intro hx now req resp t ht
    simp [completions_nonstream, ht, usageOf]

/-- C4 witness: the completion branch applied to a concrete backend reply
with a missing prompt counter. -/
theorem c4_nonstream_translation_witness :
    completions_nonstream [] 0 ⟨"m", "p", 1, none, false⟩ ⟨some "hey", none, some 2⟩
      = .ok ⟨mintId "cmpl-" [], "text_completion", 0, "m",
             [⟨"hey", 0, some "stop"⟩], ⟨0, 2, 2⟩⟩ :=
  c4_nonstream_translation.2.1 [] 0 ⟨"m", "p", 1, none, false⟩
    ⟨some "hey", none, some 2⟩ "hey" rfl

/-- C5: a non-streaming chat backend reply without a `message` key, and a
non-streaming completion reply without a `response` key, each make the
handler return the 500 HTTPException whose detail is the raw Python error
text str(KeyError(key)); the handler consumes exactly one backend reply,
so no retry exists. -/
theorem c5_missing_field_500 :
    (∀ (hx : List Char) (now : Nat) (req : ChatCompletionRequest)
        (resp : OllamaChatResponse), resp.message = none →
        chat_completions_nonstream hx now req resp
          = .error { status_code := 500, detail := keyErrorText "message" })
    ∧ (∀ (hx : List Char) (now : Nat) (req : CompletionRequest)
        (resp : OllamaGenerateResponse), resp.response = none →
        completions_nonstream hx now req resp
          = .error { status_code := 500, detail := keyErrorText "response" }) := by
  constructor
  · intro hx now req resp h
    rw [chat_completions_nonstream, h]
  · intro hx now req resp h
    rw [completions_nonstream, h]

/-- C5 witness: both missing-key cases at concrete backend replies. -/
theorem c5_missing_field_500_witness :
    chat_completions_nonstream [] 0 ⟨"m", [], 1, none, false⟩ ⟨none, none, none⟩
      = .error { status_code := 500, detail := keyErrorText "message" }
    ∧ completions_nonstream [] 0 ⟨"m", "p", 1, none, false⟩ ⟨none, none, none⟩
      = .error { status_code := 500, detail := keyErrorText "response" } :=
  ⟨c5_missing_field_500.1 [] 0 ⟨"m", [], 1, none, false⟩ ⟨none, none, none⟩ rfl,
   c5_missing_field_500.2 [] 0 ⟨"m", "p", 1, none, false⟩ ⟨none, none, none⟩ rfl⟩

/-- C6: a line that is not valid JSON yields no frame in either streaming
translator, raises nothing, and the surrounding lines still produce their
frames in the original order: splicing a malformed line into any stream
leaves the output exactly the concatenation of the outputs of the two
halves. -/
theorem c6_malformed_dropped (hx : List Char) (now : Nat) (model : String)
    (rid : String) (xs ys : List ChatLine) (gxs gys : List GenLine) :
    chatLineFrames rid now model .malformed = []
    ∧ genLineFrames rid now model .malformed = []
    ∧ stream_chat_response hx now model (xs ++ ChatLine.malformed :: ys)
        = stream_chat_response hx now model xs ++ stream_chat_response hx now model ys
    ∧ stream_completion_response hx now model (gxs ++ GenLine.malformed :: gys)
        = stream_completion_response hx now model gxs
          ++ stream_completion_response hx now model gys := by
  refine ⟨rfl, rfl, ?_, ?_⟩
  · show chatLoop (mintId "chatcmpl-" hx) now model (xs ++ ChatLine.malformed :: ys) = _
    rw [chatLoop_append, chatLoop, chatLineFrames]
    rfl
  · show genLoop (mintId "cmpl-" hx) now model (gxs ++ GenLine.malformed :: gys) = _
    rw [genLoop_append, genLoop, genLineFrames]
    rfl

/-- C7: each streaming translator emits its frames in the order the
backend lines arrive, with no reordering or buffering across lines: the
whole output is the flattening, in input order, of the frames produced per
line. -/
theorem c7_frames_in_order (hx : List Char) (now : Nat) (model : String)
    (lines : List ChatLine) (glines : List GenLine) :
    stream_chat_response hx now model lines
      = (lines.map (chatLineFrames (mintId "chatcmpl-" hx) now model)).flatten
    ∧ stream_completion_response hx now model glines
      = (glines.map (genLineFrames (mintId "cmpl-" hx) now model)).flatten :=
  ⟨chatLoop_flatten _ _ _ _, genLoop_flatten _ _ _ _⟩

/-- C8: on a 200 backend reply, GET /v1/models maps each backend model
entry to an output entry whose id is the entry's name, with object "model"
and owned_by "ollama", preserving the order and length of the backend
list. -/
theorem c8_models_mapping (now : Nat) (ms : List OllamaModelEntry) :
    ∃ body, list_models now (.ok 200 ms) = .ok body
      ∧ body.object = "list"
      ∧ body.data.map (fun e => e.id) = ms.map (fun m => m.name)
      ∧ body.data.length = ms.length
      ∧ ∀ e ∈ body.data, e.object = "model" ∧ e.owned_by = "ollama" ∧ e.created = now := by
  refine ⟨_, rfl, rfl, ?_, ?_, ?_⟩
  · rw [List.map_map]
    rfl
  · rw [List.length_map]
  · intro e he
    rw [List.mem_map] at he
    obtain ⟨m, _, rfl⟩ := he
    exact ⟨rfl, rfl, rfl⟩

/-- C9: a non-streaming chat backend reply whose `message` value is an
object without a `content` key also fails the translation, surfacing as a
500 whose detail is str(KeyError("content")): the failure mode is not
limited to a missing `message` key. -/
theorem c9_missing_content_500 (hx : List Char) (now : Nat)
    (req : ChatCompletionRequest) (resp : OllamaChatResponse) (m : OllamaMessageObj)
    (hm : resp.message = some m) (hc : m.content = none) :
    chat_completions_nonstream hx now req resp
      = .error { status_code := 500, detail := keyErrorText "content" } := by
  simp [chat_completions_nonstream, hm, hc]

/-- C9 witness: the statement at a concrete reply whose message object is
empty. -/
theorem c9_missing_content_500_witness :
    chat_completions_nonstream [] 0 ⟨"m", [], 1, none, false⟩ ⟨some ⟨none⟩, none, none⟩
      = .error { status_code := 500, detail := keyErrorText "content" } :=
  c9_missing_content_500 [] 0 ⟨"m", [], 1, none, false⟩ ⟨some ⟨none⟩, none, none⟩
    ⟨none⟩ rfl rfl

/-- C10: within one streaming call every JSON SSE chunk carries the same
request id, the one minted from the uuid hex before any line is read
(chat ids are "chatcmpl-" followed by the first 8 uuid hex characters,
completion ids "cmpl-" likewise); when the uuid hex has its real shape
(32 lowercase hex characters) the minted token is exactly 8 hex
characters. -/
theorem c10_stable_request_id :
    (∀ (hx : List Char) (now : Nat) (model : String) (lines : List ChatLine)
        (p : ChatStreamPayload),
        ChatFrame.data p ∈ stream_chat_response hx now model lines →
        p.id = mintId "chatcmpl-" hx)
    ∧ (∀ (hx : List Char) (now : Nat) (model : String) (lines : List GenLine)
        (p : GenStreamPayload),
        GenFrame.data p ∈ stream_completion_response hx now model lines →
        p.id = mintId "cmpl-" hx)
    ∧ (∀ hx : List Char, hx.length = 32 → (∀ c ∈ hx, isLowerHexChar c = true) →
        mintId "chatcmpl-" hx = "chatcmpl-" ++ String.mk (hx.take 8)
        ∧ mintId "cmpl-" hx = "cmpl-" ++ String.mk (hx.take 8)
        ∧ (hx.take 8).length = 8
        ∧ ∀ c ∈ hx.take 8, isLowerHexChar c = true) := by
  refine ⟨?_, ?_, ?_⟩
  · intro hx now model lines p h
    exact chatLoop_id _ _ _ _ _ h
  · intro hx now model lines p h
    exact genLoop_id _ _ _ _ _ h
  · intro hx hlen hhex
    refine ⟨rfl, rfl, ?_, ?_⟩
    · rw [List.length_take, hlen]
      decide
    · intro c hc
      exact hhex c (List.take_subset _ _ hc)

/-- C10 witness: the id-constancy statement at a concrete one-line stream
and the token-shape statement at a concrete 32-character uuid hex. -/
theorem c10_stable_request_id_witness :
    (chatContentPayload (mintId "chatcmpl-" (List.replicate 32 'a')) 0 "m" "Hi").id
      = mintId "chatcmpl-" (List.replicate 32 'a')
    ∧ ((List.replicate 32 'a').take 8).length = 8 := by
  constructor
  · exact c10_stable_request_id.1 (List.replicate 32 'a') 0 "m"
      [ChatLine.chunk ⟨some ⟨some "Hi"⟩, false⟩]
      (chatContentPayload (mintId "chatcmpl-" (List.replicate 32 'a')) 0 "m" "Hi")
      (by decide)
  · exact (c10_stable_request_id.2.2 (List.replicate 32 'a')
      (by decide) (by decide)).2.2.1

end OllamaApi
